import Mathlib

/-!
Shallow embedding of the request/response orchestration core of pyfabricops
(src/pyfabricops/_core.py and src/pyfabricops/_generic_endpoints.py).

HTTP transport is modelled as explicit inputs: a single call takes a
`TransportOutcome`, and the pagination / LRO loops consume a script
(`List (Except String HttpResponse)`) of responses in the order the code
issues requests, an entry `.error msg` standing for a transport exception
raised by `requests.request`.  Python exceptions that the code does not
catch are modelled by the `Except String` layer of each embedded function.
-/

namespace PyFabricOps

/-- A Python value, as far as the orchestration core inspects one
(JSON-decoded bodies, payload dictionaries, tokens). -/
inductive PyVal where
  | none
  | bool (b : Bool)
  | int (n : Int)
  | str (s : String)
  | list (xs : List PyVal)
  | dict (entries : List (String × PyVal))

/-- Python truthiness (`bool(v)`). -/
def PyVal.truthy : PyVal → Bool
  | .none => false
  | .bool b => b
  | .int n => n != 0
  | .str s => s != ""
  | .list xs => !xs.isEmpty
  | .dict es => !es.isEmpty

/-- Python `str(v)` as used inside f-strings.  Only the cases the claims
exercise (strings, numbers, booleans, None) are rendered faithfully; the
container cases use a placeholder rendering. -/
def PyVal.pyStr : PyVal → String
  | .none => "None"
  | .bool true => "True"
  | .bool false => "False"
  | .int n => toString n
  | .str s => s
  | .list _ => "<list>"
  | .dict _ => "<dict>"

/-- Is this value a Python `dict`? (`isinstance(v, dict)`). -/
def PyVal.isDict : PyVal → Bool
  | .dict _ => true
  | _ => false

/-- Python `==` between a value and a string literal: non-strings never
equal a string. -/
def pyEqStr (v : PyVal) (k : String) : Bool :=
  match v with
  | .str s => s == k
  | _ => false

/-- Python `v in [s1, ..., sn]` for string literals. -/
def statusInList (v : PyVal) (ks : List String) : Bool :=
  ks.any (fun k => pyEqStr v k)

/-- `chars0` starts with `chars1`. -/
def charsStartWith : List Char → List Char → Bool
  | _, [] => true
  | [], _ :: _ => false
  | a :: as, b :: bs => a == b && charsStartWith as bs

/-- `hay` has `needle` as a contiguous run. -/
def charsContain (hay needle : List Char) : Bool :=
  if charsStartWith hay needle then true
  else
    match hay with
    | [] => false
    | _ :: t => charsContain t needle

/-- Python `key in v`: key membership for dicts, element membership for
lists, substring for strings, `TypeError` otherwise. -/
def pyContains (key : String) : PyVal → Except String Bool
  | .dict es => .ok (es.lookup key).isSome
  | .list xs => .ok (xs.any fun v => pyEqStr v key)
  | .str s => .ok (charsContain s.toList key.toList)
  | _ => .error "TypeError: argument of type is not iterable"

/-- Python `v.get(key, default)`: only dicts have `.get`; anything else
raises `AttributeError`. -/
def pyGetMethod (v : PyVal) (key : String) (default : PyVal) : Except String PyVal :=
  match v with
  | .dict es => .ok ((es.lookup key).getD default)
  | _ => .error "AttributeError: object has no attribute get"

/-- Python `acc.extend(v)`: only lists have `.extend`; the argument must be
iterable (list, string, dict — a dict iterates over its keys). -/
def pyExtend : PyVal → PyVal → Except String PyVal
  | .list xs, .list ys => .ok (.list (xs ++ ys))
  | .list xs, .str s => .ok (.list (xs ++ s.toList.map fun c => .str c.toString))
  | .list xs, .dict es => .ok (.list (xs ++ es.map fun e => .str e.1))
  | .list _, _ => .error "TypeError: object is not iterable"
  | _, _ => .error "AttributeError: object has no attribute extend"

/-- Python `str.upper()` over a character list. -/
def upperChars : List Char → List Char
  | [] => []
  | c :: t => c.toUpper :: upperChars t

/-- Python `method.upper()`. -/
def strToUpper (s : String) : String := String.mk (upperChars s.data)

/-- Python `a or b` over optional payload dictionaries
(`payload or template['payload']`). -/
def pyOr (a b : Option PyVal) : Option PyVal :=
  match a with
  | some v => if v.truthy then some v else b
  | Option.none => b

/-- The body argument recorded in `request_kwargs`: either
`request_kwargs['data'] = data` or `request_kwargs['json'] = payload`. -/
inductive BodyArg where
  | dataBody (d : PyVal)
  | jsonBody (p : PyVal)

/-- The `request_kwargs` dictionary built by `api_core_request`. -/
structure RequestKwargs where
  method : String
  url : String
  headers : List (String × String)
  timeout : Int
  body : BodyArg

/-- A completed HTTP response as the code observes it: `status_code`,
`.json()` result (`none` = the body does not decode, so `.json()` raises),
`.text`, and the response headers. -/
structure HttpResponse where
  status_code : Nat
  body : Option PyVal
  text : String
  headers : List (String × String)

/-- `requests.Response.ok`: true when `status_code < 400`. -/
def HttpResponse.ok (r : HttpResponse) : Bool := r.status_code < 400

/-- A transport-level exception raised by `requests.request`.  All of
`requests`' exceptions derive from `RequestException`; `Timeout` and
`ConnectionError` are the two subclasses the code distinguishes, and the
`except` clauses are tried in that order (so a `ConnectTimeout`, which is
both, is caught as a timeout). -/
structure TransportError where
  isTimeout : Bool
  isConnectionError : Bool
  msg : String

/-- What `requests.request` did for the single call `api_core_request`
issues: raised an exception, or completed with a response. -/
inductive TransportOutcome where
  | exc (e : TransportError)
  | response (r : HttpResponse)

/-- The `ApiResult` named tuple of `_core.py`. -/
structure ApiResult where
  success : Bool
  status_code : Nat
  data : Option PyVal
  headers : Option (List (String × String))
  error : Option String
  request_kwargs : Option RequestKwargs

/-- What `api_core_request` hands back: normally an `ApiResult` envelope,
but the raw response object itself in `return_raw` mode. -/
inductive ApiReturn where
  | envelope (r : ApiResult)
  | raw (r : HttpResponse)

/-- Whether an `ApiReturn` is an `ApiResult` envelope. -/
def ApiReturn.isEnvelope : ApiReturn → Bool
  | .envelope _ => true
  | .raw _ => false

/-- Modelled from the spec: the two base URLs from `_scopes.py` (absent
from the sources); only their role as per-audience URL roots matters. -/
def FABRIC_API : String := "https://fabric.example/v1"

/-- Modelled from the spec: the Power BI base URL from `_scopes.py`. -/
def POWERBI_API : String := "https://powerbi.example/v1"

/-- `urllib.parse.urlencode` over a dict, modelled for keys/values without
reserved characters (values rendered with `str`). -/
def urlencodePairs (es : List (String × PyVal)) : String :=
  String.intercalate "&" (es.map fun e => e.1 ++ "=" ++ e.2.pyStr)

/-- The `if params:` block of `api_core_request`: append URL-encoded query
parameters; a truthy non-dict raises `InvalidParameterError`. -/
def urlWithParams (url : String) (params : Option PyVal) : Except String String :=
  match params with
  | Option.none => .ok url
  | some p =>
    if p.truthy then
      match p with
      | .dict es => .ok (url ++ "?" ++ urlencodePairs es)
      | _ => .error "Query parameters must be a dictionary."
    else .ok url

/-- `api_core_request` from `_core.py`.  The external token provider
(`_get_token`) is replaced by its returned value `token`; the single
`requests.request` call is replaced by `outcome`.  The `Except` layer
carries the exceptions the function itself raises
(`InvalidParameterError`, `AuthenticationError`, attribute errors). -/
def api_core_request (endpoint content_type : String)
    (payload dataArg params : Option PyVal) (audience method : String)
    (return_raw : Bool) (timeout : Int) (token : PyVal)
    (outcome : TransportOutcome) : Except String ApiReturn :=
  let base_url := if audience == "fabric" then FABRIC_API else POWERBI_API
  match urlWithParams (base_url ++ endpoint) params with
  | .error e => .error e
  | .ok url =>
  if payload.isSome && dataArg.isSome then
    .error "Cannot provide both 'payload' and 'data' parameters. Use one or the other."
  else
  let payload := payload.getD (PyVal.dict [])
  if !token.truthy then
    .error "Failed to retrieve token. Ensure that the authentication is set up correctly."
  else
  match pyGetMethod token "access_token" PyVal.none with
  | .error e => .error e
  | .ok access_token =>
  let headers := [("Content-Type", content_type),
                  ("Authorization", "Bearer " ++ access_token.pyStr)]
  if !payload.isDict then .error "Payload must be a dictionary."
  else
  let request_kwargs : RequestKwargs :=
    { method := strToUpper method, url := url, headers := headers, timeout := timeout,
      body := match dataArg with
              | some d => .dataBody d
              | Option.none => .jsonBody payload }
  match outcome with
  | .exc e =>
    if e.isTimeout then
      .ok (.envelope ⟨false, 408, Option.none, Option.none,
        some ("Request timeout after " ++ toString timeout ++ " seconds"),
        some request_kwargs⟩)
    else if e.isConnectionError then
      .ok (.envelope ⟨false, 503, Option.none, Option.none,
        some ("Connection error: " ++ e.msg), some request_kwargs⟩)
    else
      .ok (.envelope ⟨false, 500, Option.none, Option.none,
        some ("Request failed: " ++ e.msg), some request_kwargs⟩)
  | .response r =>
    if return_raw then .ok (.raw r)
    else
      let json_data := if r.ok && r.text != "" then r.body else Option.none
      .ok (.envelope ⟨r.ok, r.status_code, json_data,
        if r.ok then some r.headers else Option.none,
        if !r.ok then some r.text else Option.none,
        some request_kwargs⟩)

/-- Characters before the first `'?'`. -/
def beforeQuery : List Char → List Char
  | [] => []
  | c :: t => if c == '?' then [] else c :: beforeQuery t

/-- `url.split('?')[0]`: the URL stripped of any query string. -/
def baseOf (url : String) : String := String.mk (beforeQuery url.data)

/-- The continuation URL `f'{base_url}?continuationToken={token}'`. -/
def contUrl (base tok : String) : String :=
  base ++ "?continuationToken=" ++ tok

/-- The `while continuation_token:` loop of `pagination_handler`.  Each
iteration issues one GET (consuming the next script entry), calls
`raise_for_status`, decodes JSON, extends the accumulator with the page's
`value` items and reads the next token; any exception breaks out of the
loop, returning the accumulation so far (the whole body sits in one
`try`/`except`).  Returns the accumulator and the list of requested URLs
in order.  An exhausted script ends the loop without issuing a request
(scripts are expected to cover every iteration). -/
def paginationLoop (token acc : PyVal) (base : String)
    (script : List (Except String HttpResponse)) : PyVal × List String :=
    if token.truthy then
      let newUrl := contUrl base token.pyStr
      match script with
      | [] => (acc, [])
      | .error _ :: _ => (acc, [newUrl])
      | .ok r :: rest =>
        if 400 ≤ r.status_code ∧ r.status_code < 600 then (acc, [newUrl])
        else
          match r.body with
          | Option.none => (acc, [newUrl])
          | some body =>
            match pyGetMethod body "value" (PyVal.list []) with
            | .error _ => (acc, [newUrl])
            | .ok newData =>
              match pyExtend acc newData with
              | .error _ => (acc, [newUrl])
              | .ok acc2 =>
                match pyGetMethod body "continuationToken" PyVal.none with
                | .error _ => (acc2, [newUrl])
                | .ok tok2 =>
                  let next := paginationLoop tok2 acc2 base rest
                  (next.1, newUrl :: next.2)
    else (acc, [])
termination_by script.length
decreasing_by simp_wf

/-- `pagination_handler` from `_core.py`.  `script` supplies the responses
of the continuation GETs in order; the result additionally carries the
list of continuation URLs requested.  The `Except` layer carries the
exceptions the function does not catch (attribute/type errors on
malformed envelopes). -/
def pagination_handler (api_result : ApiResult)
    (script : List (Except String HttpResponse)) :
    Except String (ApiResult × List String) :=
  match api_result.data with
  | Option.none => .ok (api_result, [])
  | some d =>
    if !d.truthy then .ok (api_result, [])
    else
      match pyContains "continuationToken" d with
      | .error e => .error e
      | .ok false => .ok (api_result, [])
      | .ok true =>
        match pyGetMethod d "continuationToken" PyVal.none with
        | .error e => .error e
        | .ok token =>
          match pyGetMethod d "value" (PyVal.list []) with
          | .error e => .error e
          | .ok value0 =>
            match api_result.request_kwargs with
            | Option.none => .error "AttributeError: NoneType has no attribute copy"
            | some kw =>
              let next := paginationLoop token value0 (baseOf kw.url) script
              .ok ({ success := true, status_code := 200,
                     data := some (.dict [("value", next.1)]),
                     headers := api_result.headers, error := Option.none,
                     request_kwargs := api_result.request_kwargs }, next.2)

/-- `MAX_RETRIES` from `lro_handler`. -/
def MAX_RETRIES : Nat := 10

/-- `RETRY_INTERVAL` (seconds) from `lro_handler`. -/
def RETRY_INTERVAL : Nat := 5

/-- Pop the next scripted response; an exhausted script behaves as a
transport exception. -/
def takeResp (script : List (Except String HttpResponse)) :
    Except String HttpResponse × List (Except String HttpResponse) :=
  match script with
  | [] => (.error "script exhausted", [])
  | r :: rest => (r, rest)

/-- `state.json().get('status')` on a polled state response: raises when
the body does not decode or is not a dict. -/
def stateStatus (r : HttpResponse) : Except String PyVal :=
  match r.body with
  | Option.none => .error "JSONDecodeError"
  | some v => pyGetMethod v "status" PyVal.none

/-- The `GET {location}/result` branch: builds the final envelope from the
result response; `response.json()` is evaluated only when `response.ok`,
and a decode failure there raises (caught by the enclosing handler). -/
def resultEnvelope : Except String HttpResponse → Except String ApiResult
  | .error e => .error e
  | .ok r =>
    if r.ok then
      match r.body with
      | Option.none => .error "JSONDecodeError"
      | some v => .ok ⟨true, r.status_code, some v, some r.headers,
                       Option.none, Option.none⟩
    else .ok ⟨false, r.status_code, Option.none, Option.none, some r.text,
              Option.none⟩

/-- The `for attempt in range(1, MAX_RETRIES + 1):` loop of `lro_handler`.
`remaining` counts attempts left (starts at `MAX_RETRIES`), `attempt` is
the 1-based index, `lastCode` the status code of the most recent state
response (used by the exhaustion envelope).  Returns the envelope, the
number of requests issued inside the loop, and the total seconds slept. -/
def lroLoop (attempt remaining lastCode : Nat)
    (script : List (Except String HttpResponse)) : ApiResult × Nat × Nat :=
  match remaining with
  | 0 => (⟨false, lastCode, Option.none, Option.none,
          some "Max retries exceeded.", Option.none⟩, 0, 0)
  | remaining' + 1 =>
    let (r, rest) := takeResp script
    match r with
    | .error e =>
      (⟨false, 500, Option.none, Option.none,
        some ("LRO polling failed at attempt " ++ toString attempt ++ ": " ++ e),
        Option.none⟩, 1, 0)
    | .ok state =>
      match stateStatus state with
      | .error e =>
        (⟨false, 500, Option.none, Option.none,
          some ("LRO polling failed at attempt " ++ toString attempt ++ ": " ++ e),
          Option.none⟩, 1, 0)
      | .ok status =>
        if statusInList status ["Failed", "Undefined"] then
          (⟨false, state.status_code,
            if state.ok then state.body else Option.none,
            if state.ok then some state.headers else Option.none,
            some (if state.ok then "LRO failed with status: " ++ status.pyStr
                  else state.text),
            Option.none⟩, 1, 0)
        else if pyEqStr status "Succeeded" then
          let (r2, _) := takeResp rest
          match resultEnvelope r2 with
          | .error e =>
            (⟨false, 500, Option.none, Option.none,
              some ("LRO polling failed at attempt " ++ toString attempt ++ ": " ++ e),
              Option.none⟩, 2, 0)
          | .ok env => (env, 2, 0)
        else
          -- time.sleep(RETRY_INTERVAL)
          let next := lroLoop (attempt + 1) remaining' state.status_code rest
          (next.1, next.2.1 + 1, next.2.2 + RETRY_INTERVAL)

/-- `lro_handler` from `_core.py`.  `script` supplies the responses of the
status polls and result fetches in issue order.  Returns the function's
Python return value (`none` models the implicit `None` reached when the
first poll's status is none of the five recognised values), the number of
requests issued, and the total seconds slept; the `Except` layer carries
the exceptions the function does not catch (note the membership test uses
the lowercase key `'location'` while the read uses `'Location'`, exactly
as in the source). -/
def lro_handler (api_result : ApiResult)
    (script : List (Except String HttpResponse)) :
    Except String (Option ApiResult × Nat × Nat) :=
  match api_result.headers with
  | Option.none => .error "TypeError: argument of type NoneType is not iterable"
  | some hs =>
    if !hs.any (fun e => e.1 == "location") then .ok (some api_result, 0, 0)
    else
      match hs.lookup "Location" with
      | Option.none => .error "KeyError: Location"
      | some _location =>
        match api_result.request_kwargs with
        | Option.none => .error "AttributeError: NoneType has no attribute get"
        | some _kw =>
          let (r1, rest1) := takeResp script
          match r1 with
          | .error e =>
            .ok (some ⟨false, 500, Option.none, Option.none,
              some ("Failed to check LRO status: " ++ e), Option.none⟩, 1, 0)
          | .ok state1 =>
            match stateStatus state1 with
            | .error e =>
              .ok (some ⟨false, 500, Option.none, Option.none,
                some ("Failed to check LRO status: " ++ e), Option.none⟩, 1, 0)
            | .ok status =>
              if statusInList status ["Succeeded", "Failed", "Undefined"] then
                let (r2, _) := takeResp rest1
                match resultEnvelope r2 with
                | .error e =>
                  .ok (some ⟨false, 500, Option.none, Option.none,
                    some ("Failed to get LRO result: " ++ e), Option.none⟩, 2, 0)
                | .ok env => .ok (some env, 2, 0)
              else if statusInList status ["Running", "NotStarted"] then
                let next := lroLoop 1 MAX_RETRIES state1.status_code rest1
                .ok (some next.1, next.2.1 + 1, next.2.2)
              else .ok (Option.none, 1, 0)

/-- One entry of `ENDPOINT_TEMPLATES` (the table itself lives in
`_endpoint_templates.py`, absent from the sources; the dispatchers below
take the table as an explicit argument).  Field `endpoint_prefix_part`
embeds the source's workspace-prefix field. -/
structure Template where
  endpoint : String
  endpoint_prefix_part : String
  endpoint_suffix : Option String
  audience : String
  content_type : String
  payload : Option PyVal
  data : Option PyVal
  params : Option PyVal
  method : String
  return_raw : Bool
  requires_workspace_id : Bool
  support_pagination : Bool

/-- Python `f'{o}'` on an optional string (`str(None) = "None"`). -/
def optStr (o : Option String) : String := o.getD "None"

/-- The endpoint expression of `_list_generic`
(`template['endpoint']` or prefix + workspace id + endpoint). -/
def listEndpoint (tpl : Template) (workspace_id : Option String) : String :=
  if !tpl.requires_workspace_id then tpl.endpoint
  else tpl.endpoint_prefix_part ++ optStr workspace_id ++ tpl.endpoint

/-- The endpoint expression of `_get_generic` / `_delete_generic` /
`_patch_generic` (the list endpoint with `/{item_id}` appended). -/
def itemEndpoint (tpl : Template) (workspace_id item_id : Option String) : String :=
  listEndpoint tpl workspace_id ++ "/" ++ optStr item_id

/-- The endpoint expression of `_post_generic` (item id appended only when
present, then the optional fixed suffix). -/
def postEndpoint (tpl : Template) (workspace_id item_id : Option String) : String :=
  listEndpoint tpl workspace_id
    ++ (match item_id with | some i => "/" ++ i | Option.none => "")
    ++ (tpl.endpoint_suffix.getD "")

/-- What a dispatcher entry point hands back to the caller: Python `None`,
a Python value, or — in raw-passthrough mode — whatever `api_core_request`
returned (the raw response object, or a failure envelope). -/
inductive PyRet where
  | none
  | val (v : PyVal)
  | rawResp (r : HttpResponse)
  | envelope (r : ApiResult)

/-- The `if template['return_raw']: return response` passthrough. -/
def rawPassthrough : ApiReturn → PyRet
  | .raw r => .rawResp r
  | .envelope e => .envelope e

/-- `_list_generic` from `_generic_endpoints.py`.  `templates` stands for
the `ENDPOINT_TEMPLATES` table, `token`/`outcome` parameterise the single
`api_core_request` call, `script` the pagination continuation GETs.  Note
the function has no final `return`: when the template does not support
pagination it falls off the end, returning `None`. -/
def _list_generic (templates : List (String × Template)) (endpoint : String)
    (workspace_id : Option String) (token : PyVal)
    (outcome : TransportOutcome)
    (script : List (Except String HttpResponse)) : Except String PyRet :=
  match templates.lookup endpoint with
  | Option.none => .error ("Unknown template name: " ++ endpoint)
  | some template =>
    if template.requires_workspace_id && workspace_id.isNone then
      .error ("Workspace ID is required for endpoint: " ++ endpoint)
    else
      match api_core_request (listEndpoint template workspace_id)
          template.content_type template.payload template.data template.params
          template.audience template.method template.return_raw 30 token outcome with
      | .error e => .error e
      | .ok ret =>
        if template.return_raw then .ok (rawPassthrough ret)
        else
          match ret with
          | .raw _ => .error "AttributeError: Response has no attribute success"
          | .envelope response =>
            if !response.success then .ok PyRet.none
            else if template.support_pagination then
              match pagination_handler response script with
              | .error e => .error e
              | .ok (penv, _) =>
                match penv.data with
                | Option.none => .error "AttributeError: NoneType has no attribute get"
                | some d =>
                  match pyGetMethod d "value" (PyVal.list []) with
                  | .error e => .error e
                  | .ok v => .ok (.val v)
            else .ok PyRet.none

/-- `_get_generic` from `_generic_endpoints.py`. -/
def _get_generic (templates : List (String × Template)) (endpoint : String)
    (workspace_id item_id : Option String) (token : PyVal)
    (outcome : TransportOutcome) : Except String PyRet :=
  match templates.lookup endpoint with
  | Option.none => .error ("Unknown template name: " ++ endpoint)
  | some template =>
    if template.requires_workspace_id && workspace_id.isNone then
      .error ("Workspace ID is required for endpoint: " ++ endpoint)
    else
      match api_core_request (itemEndpoint template workspace_id item_id)
          template.content_type template.payload template.data template.params
          template.audience template.method template.return_raw 30 token outcome with
      | .error e => .error e
      | .ok ret =>
        if template.return_raw then .ok (rawPassthrough ret)
        else
          match ret with
          | .raw _ => .error "AttributeError: Response has no attribute success"
          | .envelope response =>
            if !response.success then .ok PyRet.none
            else
              match response.data with
              | Option.none => .ok PyRet.none
              | some v => .ok (.val v)

/-- `_delete_generic` from `_generic_endpoints.py` (method forced to
`delete`; returns `None` on success as well). -/
def _delete_generic (templates : List (String × Template)) (endpoint : String)
    (workspace_id item_id : Option String) (token : PyVal)
    (outcome : TransportOutcome) : Except String PyRet :=
  match templates.lookup endpoint with
  | Option.none => .error ("Unknown template name: " ++ endpoint)
  | some template =>
    if template.requires_workspace_id && workspace_id.isNone then
      .error ("Workspace ID is required for endpoint: " ++ endpoint)
    else
      match api_core_request (itemEndpoint template workspace_id item_id)
          template.content_type template.payload template.data template.params
          template.audience "delete" template.return_raw 30 token outcome with
      | .error e => .error e
      | .ok ret =>
        if template.return_raw then .ok (rawPassthrough ret)
        else
          match ret with
          | .raw _ => .error "AttributeError: Response has no attribute success"
          | .envelope response =>
            if !response.success then .ok PyRet.none
            else .ok PyRet.none

/-- `_post_generic` from `_generic_endpoints.py` (method forced to `post`,
payload `payload or template['payload']`; a 202 routes through
`lro_handler`, an LRO failure or falsy LRO data returns `None`). -/
def _post_generic (templates : List (String × Template)) (endpoint : String)
    (workspace_id item_id : Option String) (payload : Option PyVal)
    (token : PyVal) (outcome : TransportOutcome)
    (lroScript : List (Except String HttpResponse)) : Except String PyRet :=
  match templates.lookup endpoint with
  | Option.none => .error ("Unknown template name: " ++ endpoint)
  | some template =>
    if template.requires_workspace_id && workspace_id.isNone then
      .error ("Workspace ID is required for endpoint: " ++ endpoint)
    else
      match api_core_request (postEndpoint template workspace_id item_id)
          template.content_type (pyOr payload template.payload) template.data
          template.params template.audience "post" template.return_raw 30
          token outcome with
      | .error e => .error e
      | .ok ret =>
        if template.return_raw then .ok (rawPassthrough ret)
        else
          match ret with
          | .raw _ => .error "AttributeError: Response has no attribute success"
          | .envelope response =>
            if !response.success then .ok PyRet.none
            else if response.status_code == 202 then
              match lro_handler response lroScript with
              | .error e => .error e
              | .ok (Option.none, _, _) =>
                .error "AttributeError: NoneType has no attribute success"
              | .ok (some lro_response, _, _) =>
                if !lro_response.success then .ok PyRet.none
                else
                  match lro_response.data with
                  | Option.none => .ok PyRet.none
                  | some v =>
                    if !v.truthy then .ok PyRet.none
                    else .ok (.val v)
            else
              match response.data with
              | Option.none => .ok PyRet.none
              | some v => .ok (.val v)

/-- `_patch_generic` from `_generic_endpoints.py` (method forced to
`patch`; unlike `_post_generic` there is no empty-LRO-data check). -/
def _patch_generic (templates : List (String × Template)) (endpoint : String)
    (workspace_id item_id : Option String) (payload : Option PyVal)
    (token : PyVal) (outcome : TransportOutcome)
    (lroScript : List (Except String HttpResponse)) : Except String PyRet :=
  match templates.lookup endpoint with
  | Option.none => .error ("Unknown template name: " ++ endpoint)
  | some template =>
    if template.requires_workspace_id && workspace_id.isNone then
      .error ("Workspace ID is required for endpoint: " ++ endpoint)
    else
      match api_core_request (itemEndpoint template workspace_id item_id)
          template.content_type (pyOr payload template.payload) template.data
          template.params template.audience "patch" template.return_raw 30
          token outcome with
      | .error e => .error e
      | .ok ret =>
        if template.return_raw then .ok (rawPassthrough ret)
        else
          match ret with
          | .raw _ => .error "AttributeError: Response has no attribute success"
          | .envelope response =>
            if !response.success then .ok PyRet.none
            else if response.status_code == 202 then
              match lro_handler response lroScript with
              | .error e => .error e
              | .ok (Option.none, _, _) =>
                .error "AttributeError: NoneType has no attribute success"
              | .ok (some lro_response, _, _) =>
                if !lro_response.success then .ok PyRet.none
                else
                  match lro_response.data with
                  | Option.none => .ok PyRet.none
                  | some v => .ok (.val v)
            else
              match response.data with
              | Option.none => .ok PyRet.none
              | some v => .ok (.val v)

/- ### Script-building helpers and fixtures used by the theorems -/

/-- A paginated-page response: HTTP 200, body `{'value': items}` plus a
`continuationToken` entry when `tok` is present. -/
def pageResp (items : List PyVal) (tok : Option String) : HttpResponse :=
  { status_code := 200,
    body := some (PyVal.dict (("value", PyVal.list items) ::
      (match tok with
       | some t => [("continuationToken", PyVal.str t)]
       | Option.none => []))),
    text := "page", headers := [] }

/-- An LRO status-resource response: body `{'status': s}`. -/
def statusResp (code : Nat) (s : String) : HttpResponse :=
  { status_code := code, body := some (PyVal.dict [("status", PyVal.str s)]),
    text := "", headers := [] }

/-- The script of mid-chain pages: each carries its items and the token the
server returns for the next page. -/
def midScript (mids : List (List PyVal × String)) :
    List (Except String HttpResponse) :=
  mids.map (fun p => Except.ok (pageResp p.1 (some p.2)))

/-- The token in force after following a mid-chain: the last page's token,
or the initial token for an empty chain. -/
def lastTok (t0 : String) : List (List PyVal × String) → String
  | [] => t0
  | p :: rest => lastTok p.2 rest

/-- The continuation URLs requested while consuming a mid-chain. -/
def chainUrls (base t0 : String) : List (List PyVal × String) → List String
  | [] => []
  | p :: rest => contUrl base t0 :: chainUrls base p.2 rest

/-- The success envelope `pagination_handler` rebuilds around the
accumulated items. -/
def successEnvOf (env : ApiResult) (items : List PyVal) : ApiResult :=
  { success := true, status_code := 200,
    data := some (PyVal.dict [("value", PyVal.list items)]),
    headers := env.headers, error := Option.none,
    request_kwargs := env.request_kwargs }

/-- The script of in-loop LRO polls: status-code / status-string pairs. -/
def pollScript (polls : List (Nat × String)) :
    List (Except String HttpResponse) :=
  polls.map (fun p => Except.ok (statusResp p.1 p.2))

/-- A status string that keeps the LRO retry loop going (anything that is
neither `Failed`, `Undefined` nor `Succeeded`). -/
def nonTerminal (s : String) : Prop :=
  s ≠ "Failed" ∧ s ≠ "Undefined" ∧ s ≠ "Succeeded"

instance (s : String) : Decidable (nonTerminal s) := by
  unfold nonTerminal; infer_instance

/-- The status code of the most recent poll after consuming a poll chain. -/
def lastCode0 (c : Nat) : List (Nat × String) → Nat
  | [] => c
  | p :: rest => lastCode0 p.1 rest

/-- Fixture: request kwargs of the originating call (URL carries a query
string so that pagination's query-stripping is exercised). -/
def kwFix : RequestKwargs :=
  ⟨"GET", "u?x=1", [("Authorization", "Bearer T")], 30,
   .jsonBody (PyVal.dict [])⟩

/-- Fixture: a paginated initial envelope (one item, token `A`). -/
def envPag : ApiResult :=
  ⟨true, 200,
   some (.dict [("value", .list [.int 1]), ("continuationToken", .str "A")]),
   some [("h", "1")], Option.none, some kwFix⟩

/-- Fixture: a 202 envelope carrying both `'location'` and `'Location'`
header keys, so that `lro_handler`'s poll path is reachable. -/
def envLro : ApiResult :=
  ⟨true, 202, Option.none, some [("location", "L"), ("Location", "L")],
   Option.none, some kwFix⟩

/-- Fixture: a 202 envelope carrying only the conventional `Location`
header key, as produced by a real server response. -/
def envLocOnly : ApiResult :=
  ⟨true, 202, Option.none, some [("Location", "https://api.test/op/1")],
   Option.none, some kwFix⟩

/-- Fixture: an LRO `/result` response. -/
def resultFix : HttpResponse :=
  ⟨200, some (.dict [("id", .str "42")]), "result", [("rh", "1")]⟩

/-- Fixture: a token dictionary from the external provider. -/
def tokFix : PyVal := .dict [("access_token", .str "T")]

/-- Fixture: a completed raw response for `return_raw` mode. -/
def respRaw : HttpResponse :=
  ⟨200, some (.dict [("value", .list [])]), "rawbody", [("H", "1")]⟩

/-- Fixture: a successful list response body `{'value': [1]}` with no
continuation token. -/
def respList : HttpResponse :=
  ⟨200, some (.dict [("value", .list [.int 1])]), "jsonbody", []⟩

/-- Fixture: a list template that does not support pagination (raw mode
off, no workspace scope). -/
def tplNoPag : Template :=
  { endpoint := "/items", endpoint_prefix_part := "", endpoint_suffix := Option.none,
    audience := "fabric", content_type := "application/json",
    payload := Option.none, data := Option.none, params := Option.none,
    method := "get", return_raw := false, requires_workspace_id := false,
    support_pagination := false }

/-- Fixture: the same template with pagination support switched on. -/
def tplPag : Template :=
  { tplNoPag with support_pagination := true }

/-- Fixture: the envelope built from `resultFix` by the LRO result fetch. -/
def resultEnvFix : ApiResult :=
  ⟨true, 200, some (.dict [("id", .str "42")]), some [("rh", "1")],
   Option.none, Option.none⟩

/-- Fixture: the request kwargs `api_core_request` builds for a plain GET
of `/items` against the fabric base URL with token `T`. -/
def kwList : RequestKwargs :=
  { method := "GET", url := FABRIC_API ++ "/items",
    headers := [("Content-Type", "application/json"),
                ("Authorization", "Bearer T")],
    timeout := 30, body := .jsonBody (PyVal.dict []) }

/-- Fixture: the envelope `api_core_request` produces for `respList`. -/
def envList : ApiResult :=
  ⟨true, 200, some (.dict [("value", .list [.int 1])]), some [],
   Option.none, some kwList⟩

/- ### Helper lemmas -/

-- A nonempty string prepended to anything gives a nonempty string.
theorem strAppend_ne_empty (a b : String) (h : a.data ≠ []) : a ++ b ≠ "" := by
  intro hab
  apply h
  have hd : (a ++ b).data = [] := by rw [hab]
  rw [String.data_append] at hd
  exact (List.append_eq_nil.mp hd).1

theorem strAppend_data_ne (a b : String) (h : a.data ≠ []) :
    (a ++ b).data ≠ [] := by
  rw [String.data_append]
  simp [h]

-- One unfolding of the pagination loop per script-entry shape.
theorem paginationLoop_falsy (token acc : PyVal) (base : String)
    (script : List (Except String HttpResponse)) (h : token.truthy = false) :
    paginationLoop token acc base script = (acc, []) := by
  rw [paginationLoop]
  simp [h]

theorem paginationLoop_err (t : String) (h : t ≠ "") (acc : PyVal)
    (base : String) (e : String) (rest : List (Except String HttpResponse)) :
    paginationLoop (PyVal.str t) acc base (.error e :: rest)
      = (acc, [contUrl base t]) := by
  rw [paginationLoop]
  simp [PyVal.truthy, PyVal.pyStr, h]

theorem paginationLoop_httpErr (t : String) (h : t ≠ "") (acc : PyVal)
    (base : String) (r : HttpResponse) (h4 : 400 ≤ r.status_code)
    (h6 : r.status_code < 600) (rest : List (Except String HttpResponse)) :
    paginationLoop (PyVal.str t) acc base (.ok r :: rest)
      = (acc, [contUrl base t]) := by
  rw [paginationLoop]
  simp [PyVal.truthy, PyVal.pyStr, h, h4, h6]

theorem paginationLoop_page_some (t : String) (h : t ≠ "") (acc xs : List PyVal)
    (base : String) (t2 : String) (rest : List (Except String HttpResponse)) :
    paginationLoop (PyVal.str t) (PyVal.list acc) base
        (.ok (pageResp xs (some t2)) :: rest)
      = ((paginationLoop (PyVal.str t2) (PyVal.list (acc ++ xs)) base rest).1,
         contUrl base t
           :: (paginationLoop (PyVal.str t2) (PyVal.list (acc ++ xs)) base rest).2) := by
  rw [paginationLoop]
  simp [PyVal.truthy, PyVal.pyStr, h, pageResp, pyGetMethod, pyExtend,
    List.lookup]

theorem paginationLoop_page_none (t : String) (h : t ≠ "") (acc xs : List PyVal)
    (base : String) (rest : List (Except String HttpResponse)) :
    paginationLoop (PyVal.str t) (PyVal.list acc) base
        (.ok (pageResp xs Option.none) :: rest)
      = (PyVal.list (acc ++ xs), [contUrl base t]) := by
  rw [paginationLoop]
  simp [PyVal.truthy, PyVal.pyStr, h, pageResp, pyGetMethod, pyExtend,
    List.lookup]
  rw [paginationLoop]
  simp [PyVal.truthy]

-- Consuming a chain of token-carrying pages accumulates their items in
-- order and requests one continuation URL per page.
theorem paginationLoop_mids (mids : List (List PyVal × String)) :
    ∀ (t0 : String) (acc : List PyVal) (base : String)
      (tail : List (Except String HttpResponse)),
      t0 ≠ "" → (∀ p ∈ mids, p.2 ≠ "") →
      paginationLoop (PyVal.str t0) (PyVal.list acc) base (midScript mids ++ tail)
        = ((paginationLoop (PyVal.str (lastTok t0 mids))
              (PyVal.list (acc ++ (mids.map Prod.fst).flatten)) base tail).1,
           chainUrls base t0 mids
             ++ (paginationLoop (PyVal.str (lastTok t0 mids))
                   (PyVal.list (acc ++ (mids.map Prod.fst).flatten)) base tail).2) := by
  induction mids with
  | nil => intro t0 acc base tail h0 _; simp [midScript, lastTok, chainUrls]
  | cons p rest ih =>
    intro t0 acc base tail h0 hm
    obtain ⟨xs, t⟩ := p
    have ht : t ≠ "" := hm (xs, t) (by simp)
    have hrest : ∀ q ∈ rest, q.2 ≠ "" := fun q hq => hm q (by simp [hq])
    have hms : midScript ((xs, t) :: rest)
        = Except.ok (pageResp xs (some t)) :: midScript rest := rfl
    rw [hms, List.cons_append,
        paginationLoop_page_some t0 h0 acc xs base t (midScript rest ++ tail),
        ih t (acc ++ xs) base tail ht hrest]
    simp [lastTok, chainUrls, List.append_assoc]

theorem lastTok_ne (mids : List (List PyVal × String)) :
    ∀ t0, t0 ≠ "" → (∀ p ∈ mids, p.2 ≠ "") → lastTok t0 mids ≠ "" := by
  induction mids with
  | nil => intro t0 h0 _; simpa [lastTok] using h0
  | cons p rest ih =>
    intro t0 _ hm
    exact ih p.2 (hm p (by simp)) (fun q hq => hm q (by simp [hq]))

theorem chainUrls_length (mids : List (List PyVal × String)) :
    ∀ base t0, (chainUrls base t0 mids).length = mids.length := by
  induction mids with
  | nil => intro base t0; simp [chainUrls]
  | cons p rest ih => intro base t0; simp [chainUrls, ih]

/-- C1: an initial envelope whose data lacks a continuation-token field is
returned unchanged with no additional request; an initial envelope whose
data carries a (truthy) continuation token makes `pagination_handler`
issue one additional GET per server-returned continuation token, and the
returned envelope's `value` collection is the concatenation of all pages'
items in fetch order, preserving within-page order. -/
theorem pagination_handler_pages (env : ApiResult) :
    (env.data = Option.none →
      ∀ script, pagination_handler env script = .ok (env, []))
  ∧ (∀ es, env.data = some (PyVal.dict es) →
      (es.lookup "continuationToken").isSome = false →
      ∀ script, pagination_handler env script = .ok (env, []))
  ∧ (∀ kw es t0 xs0 mids last,
      env.request_kwargs = some kw →
      env.data = some (PyVal.dict es) →
      es.lookup "continuationToken" = some (PyVal.str t0) →
      t0 ≠ "" →
      es.lookup "value" = some (PyVal.list xs0) →
      (∀ p ∈ mids, p.2 ≠ "") →
      pagination_handler env
          (midScript mids ++ [Except.ok (pageResp last Option.none)])
        = .ok (successEnvOf env (xs0 ++ (mids.map Prod.fst).flatten ++ last),
               chainUrls (baseOf kw.url) t0 mids
                 ++ [contUrl (baseOf kw.url) (lastTok t0 mids)])
      ∧ (chainUrls (baseOf kw.url) t0 mids
           ++ [contUrl (baseOf kw.url) (lastTok t0 mids)]).length
          = mids.length + 1) := by
  refine ⟨?_, ?_, ?_⟩
  · intro hd script
    simp [pagination_handler, hd]
  · intro es hd hno script
    simp only [pagination_handler, hd]
    by_cases he : es.isEmpty
    · simp [PyVal.truthy, he]
    · simp [PyVal.truthy, he, pyContains, hno]
  · intro kw es t0 xs0 mids last hkw hd hct h0 hv hm
    have hes : es.isEmpty = false := by
      cases es with
      | nil => simp [List.lookup] at hct
      | cons a l => simp
    refine ⟨?_, by simp [chainUrls_length]⟩
    simp only [pagination_handler, hd, PyVal.truthy, hes, Bool.not_false,
      Bool.not_true, if_false, pyContains, pyGetMethod, hct, hkw, hv,
      Option.isSome_some, Option.getD_some]
    rw [paginationLoop_mids mids t0 xs0 (baseOf kw.url)
          [Except.ok (pageResp last Option.none)] h0 hm,
        paginationLoop_page_none (lastTok t0 mids)
          (lastTok_ne mids t0 h0 hm) (xs0 ++ (mids.map Prod.fst).flatten) last
          (baseOf kw.url) []]
    simp [successEnvOf, hkw]

/-- C1 witness: a concrete three-page sequence (items `[1]` with token `A`,
then `[2]` with token `B`, then `[3]` with no token) accumulates `[1,2,3]`
over exactly two continuation GETs. -/
theorem pagination_handler_pages_witness :
    pagination_handler envPag
        (midScript [([PyVal.int 2], "B")]
          ++ [Except.ok (pageResp [PyVal.int 3] Option.none)])
      = .ok (successEnvOf envPag [PyVal.int 1, PyVal.int 2, PyVal.int 3],
             ["u?continuationToken=A", "u?continuationToken=B"])
    ∧ (["u?continuationToken=A", "u?continuationToken=B"] : List String).length
        = 1 + 1 := by
  have h := (pagination_handler_pages envPag).2.2 kwFix
      [("value", PyVal.list [PyVal.int 1]), ("continuationToken", PyVal.str "A")]
      "A" [PyVal.int 1] [([PyVal.int 2], "B")] [PyVal.int 3]
      rfl rfl rfl (by decide) rfl (by decide)
  exact ⟨h.1, h.2⟩

/-- C2: a transport exception (or an HTTP-error page) while fetching a
continuation page makes `pagination_handler` stop and return the items
accumulated so far in a success-shaped envelope (`success = true`); in
particular an error on the second page returns only the first page's
items as a success. -/
theorem pagination_handler_truncation (env : ApiResult) :
    ∀ kw es t0 xs0 mids,
      env.request_kwargs = some kw →
      env.data = some (PyVal.dict es) →
      es.lookup "continuationToken" = some (PyVal.str t0) →
      t0 ≠ "" →
      es.lookup "value" = some (PyVal.list xs0) →
      (∀ p ∈ mids, p.2 ≠ "") →
      (∀ emsg rest,
        pagination_handler env (midScript mids ++ Except.error emsg :: rest)
          = .ok (successEnvOf env (xs0 ++ (mids.map Prod.fst).flatten),
                 chainUrls (baseOf kw.url) t0 mids
                   ++ [contUrl (baseOf kw.url) (lastTok t0 mids)]))
      ∧ (∀ (r : HttpResponse) rest, 400 ≤ r.status_code → r.status_code < 600 →
          pagination_handler env (midScript mids ++ Except.ok r :: rest)
            = .ok (successEnvOf env (xs0 ++ (mids.map Prod.fst).flatten),
                   chainUrls (baseOf kw.url) t0 mids
                     ++ [contUrl (baseOf kw.url) (lastTok t0 mids)]))
      ∧ (successEnvOf env (xs0 ++ (mids.map Prod.fst).flatten)).success
          = true := by
  intro kw es t0 xs0 mids hkw hd hct h0 hv hm
  have hes : es.isEmpty = false := by
    cases es with
    | nil => simp [List.lookup] at hct
    | cons a l => simp
  refine ⟨?_, ?_, rfl⟩
  · intro emsg rest
    simp only [pagination_handler, hd, PyVal.truthy, hes, Bool.not_false,
      Bool.not_true, if_false, pyContains, pyGetMethod, hct, hkw, hv,
      Option.isSome_some, Option.getD_some]
    rw [paginationLoop_mids mids t0 xs0 (baseOf kw.url)
          (Except.error emsg :: rest) h0 hm,
        paginationLoop_err (lastTok t0 mids) (lastTok_ne mids t0 h0 hm)
          (PyVal.list (xs0 ++ (mids.map Prod.fst).flatten)) (baseOf kw.url)
          emsg rest]
    simp [successEnvOf, hkw]
  · intro r rest h4 h6
    simp only [pagination_handler, hd, PyVal.truthy, hes, Bool.not_false,
      Bool.not_true, if_false, pyContains, pyGetMethod, hct, hkw, hv,
      Option.isSome_some, Option.getD_some]
    rw [paginationLoop_mids mids t0 xs0 (baseOf kw.url)
          (Except.ok r :: rest) h0 hm,
        paginationLoop_httpErr (lastTok t0 mids) (lastTok_ne mids t0 h0 hm)
          (PyVal.list (xs0 ++ (mids.map Prod.fst).flatten)) (baseOf kw.url)
          r h4 h6 rest]
    simp [successEnvOf, hkw]

/-- C2 witness: a transport error on the second page of a three-page
sequence yields a success-shaped envelope containing only page 1's items. -/
theorem pagination_handler_truncation_witness :
    pagination_handler envPag [Except.error "boom"]
      = .ok (successEnvOf envPag [PyVal.int 1], ["u?continuationToken=A"])
    ∧ (successEnvOf envPag [PyVal.int 1]).success = true := by
  have h := pagination_handler_truncation envPag kwFix
      [("value", PyVal.list [PyVal.int 1]), ("continuationToken", PyVal.str "A")]
      "A" [PyVal.int 1] [] rfl rfl rfl (by decide) rfl (by decide)
  exact ⟨h.1 "boom" [], h.2.2⟩

-- One unfolding of the LRO retry loop per script-entry shape.
theorem lroLoop_step_nonterminal (attempt remaining' lastCode c : Nat)
    (s : String) (h : nonTerminal s)
    (rest : List (Except String HttpResponse)) :
    lroLoop attempt (remaining' + 1) lastCode (.ok (statusResp c s) :: rest)
      = ((lroLoop (attempt + 1) remaining' c rest).1,
         (lroLoop (attempt + 1) remaining' c rest).2.1 + 1,
         (lroLoop (attempt + 1) remaining' c rest).2.2 + RETRY_INTERVAL) := by
  obtain ⟨h1, h2, h3⟩ := h
  simp [lroLoop, takeResp, stateStatus, statusResp, pyGetMethod, List.lookup,
    statusInList, pyEqStr, h1, h2, h3]

theorem lroLoop_step_succeeded (attempt remaining' lastCode cs : Nat)
    (r : HttpResponse) (b : PyVal) (hb : r.body = some b)
    (rest : List (Except String HttpResponse)) :
    lroLoop attempt (remaining' + 1) lastCode
        (.ok (statusResp cs "Succeeded") :: .ok r :: rest)
      = (⟨r.ok, r.status_code,
          if r.ok then some b else Option.none,
          if r.ok then some r.headers else Option.none,
          if r.ok then Option.none else some r.text,
          Option.none⟩, 2, 0) := by
  by_cases hok : r.ok <;>
    simp [lroLoop, takeResp, stateStatus, statusResp, pyGetMethod, List.lookup,
      statusInList, pyEqStr, resultEnvelope, hok, hb]

theorem lroLoop_step_failed (attempt remaining' lastCode cs : Nat) (sF : String)
    (hsf : sF = "Failed" ∨ sF = "Undefined") (hcs : cs < 400)
    (rest : List (Except String HttpResponse)) :
    lroLoop attempt (remaining' + 1) lastCode (.ok (statusResp cs sF) :: rest)
      = (⟨false, cs, some (.dict [("status", .str sF)]), some [],
          some ("LRO failed with status: " ++ sF), Option.none⟩, 1, 0) := by
  rcases hsf with rfl | rfl <;>
    simp [lroLoop, takeResp, stateStatus, statusResp, pyGetMethod, List.lookup,
      statusInList, pyEqStr, HttpResponse.ok, hcs, PyVal.pyStr]

theorem lroLoop_step_transport (attempt remaining' lastCode : Nat)
    (emsg : String) (tail : List (Except String HttpResponse)) :
    lroLoop attempt (remaining' + 1) lastCode (.error emsg :: tail)
      = (⟨false, 500, Option.none, Option.none,
          some ("LRO polling failed at attempt " ++ toString attempt ++ ": " ++ emsg),
          Option.none⟩, 1, 0) := by
  simp [lroLoop, takeResp]

-- Skipping a chain of non-terminal polls: one request and one sleep each.
theorem lroLoop_skip (polls : List (Nat × String)) :
    ∀ attempt remaining lastCode
      (tail : List (Except String HttpResponse)),
      (∀ p ∈ polls, nonTerminal p.2) →
      polls.length ≤ remaining →
      lroLoop attempt remaining lastCode (pollScript polls ++ tail)
        = ((lroLoop (attempt + polls.length) (remaining - polls.length)
              (lastCode0 lastCode polls) tail).1,
           (lroLoop (attempt + polls.length) (remaining - polls.length)
              (lastCode0 lastCode polls) tail).2.1 + polls.length,
           (lroLoop (attempt + polls.length) (remaining - polls.length)
              (lastCode0 lastCode polls) tail).2.2
             + RETRY_INTERVAL * polls.length) := by
  induction polls with
  | nil => intro attempt remaining lastCode tail _ _; simp [pollScript, lastCode0]
  | cons p rest ih =>
    intro attempt remaining lastCode tail hnt hlen
    obtain ⟨c, s⟩ := p
    match remaining with
    | 0 => simp at hlen
    | remaining' + 1 =>
      have hps : pollScript ((c, s) :: rest)
          = Except.ok (statusResp c s) :: pollScript rest := rfl
      rw [hps, List.cons_append,
          lroLoop_step_nonterminal attempt remaining' lastCode c s
            (hnt (c, s) (by simp)) (pollScript rest ++ tail),
          ih (attempt + 1) remaining' c tail
            (fun q hq => hnt q (by simp [hq])) (by simpa using hlen)]
      simp only [List.length_cons, lastCode0]
      rw [show attempt + (rest.length + 1) = attempt + 1 + rest.length from by omega,
          show remaining' + 1 - (rest.length + 1) = remaining' - rest.length from by omega]
      simp only [Prod.mk.injEq, RETRY_INTERVAL]
      refine ⟨trivial, ?_, ?_⟩ <;> omega

-- The prelude of `lro_handler` when the first poll reports a running state.
theorem lro_handler_enters_loop (env : ApiResult) (hs : List (String × String))
    (loc : String) (kw : RequestKwargs) (c0 : Nat) (s0 : String)
    (h1 : env.headers = some hs)
    (h2 : hs.any (fun e => e.1 == "location") = true)
    (h3 : hs.lookup "Location" = some loc)
    (h4 : env.request_kwargs = some kw)
    (h5 : s0 = "Running" ∨ s0 = "NotStarted")
    (rest : List (Except String HttpResponse)) :
    lro_handler env (.ok (statusResp c0 s0) :: rest)
      = .ok (some (lroLoop 1 MAX_RETRIES c0 rest).1,
             (lroLoop 1 MAX_RETRIES c0 rest).2.1 + 1,
             (lroLoop 1 MAX_RETRIES c0 rest).2.2) := by
  rcases h5 with rfl | rfl <;>
    simp [lro_handler, h1, h2, h3, h4, takeResp, stateStatus, statusResp,
      pyGetMethod, List.lookup, statusInList, pyEqStr]

/-- C3 (amended): on `lro_handler`'s first poll, every terminal status —
`Succeeded`, `Failed` and `Undefined` alike — causes a GET of
`{Location}/result`, and that response is returned as the final envelope
(its success mirroring the result response's `ok`); a `Failed` or
`Undefined` first-poll status does not short-circuit into a failure
envelope carrying the status body. -/
theorem lro_handler_first_poll_terminal (env : ApiResult)
    (hs : List (String × String)) (loc : String) (kw : RequestKwargs)
    (h1 : env.headers = some hs)
    (h2 : hs.any (fun e => e.1 == "location") = true)
    (h3 : hs.lookup "Location" = some loc)
    (h4 : env.request_kwargs = some kw)
    (s : String) (hs3 : s = "Succeeded" ∨ s = "Failed" ∨ s = "Undefined")
    (c0 : Nat) (r : HttpResponse) (b : PyVal) (hb : r.body = some b)
    (tail : List (Except String HttpResponse)) :
    lro_handler env (.ok (statusResp c0 s) :: (.ok r :: tail))
      = .ok (some ⟨r.ok, r.status_code,
                   if r.ok then some b else Option.none,
                   if r.ok then some r.headers else Option.none,
                   if r.ok then Option.none else some r.text,
                   Option.none⟩, 2, 0) := by
  rcases hs3 with rfl | rfl | rfl <;> by_cases hok : r.ok <;>
    simp [lro_handler, h1, h2, h3, h4, takeResp, stateStatus, statusResp,
      pyGetMethod, List.lookup, statusInList, pyEqStr, resultEnvelope, hok, hb]

/-- C3 witness: a first poll reporting `Succeeded` followed by a 200
`/result` response returns that result as a success envelope after
exactly two requests. -/
theorem lro_handler_first_poll_terminal_witness :
    lro_handler envLro [Except.ok (statusResp 200 "Succeeded"),
                        Except.ok resultFix]
      = .ok (some resultEnvFix, 2, 0) := by
  have h := lro_handler_first_poll_terminal envLro
      [("location", "L"), ("Location", "L")] "L" kwFix rfl rfl rfl rfl
      "Succeeded" (Or.inl rfl) 200 resultFix (.dict [("id", .str "42")]) rfl []
  exact h

/-- C3 counterexample: with a first-poll status of `Failed` and a 200
`/result` response, `lro_handler` returns a SUCCESS envelope built from
the `/result` body after two requests — not a failure envelope carrying
the status-resource body, contradicting the claim. -/
theorem lro_handler_failed_cex :
    lro_handler envLro [Except.ok (statusResp 200 "Failed"),
                        Except.ok resultFix]
      = .ok (some resultEnvFix, 2, 0)
    ∧ resultEnvFix.success = true := ⟨rfl, rfl⟩

/-- C4: when the first status poll reads `Running` or `NotStarted`,
`lro_handler` enters a loop of at most `MAX_RETRIES = 10` attempts at a
fixed `RETRY_INTERVAL = 5`-second interval, and every exit is one of:
exhaustion of all 10 attempts without a terminal status → a failure
envelope with message "Max retries exceeded." (after 10 sleeps);
`Succeeded` at some attempt → the `GET {Location}/result` envelope;
`Failed`/`Undefined` at some attempt → an immediate failure envelope;
a transport exception at some attempt → an immediate failure tagged with
that attempt index, with no further request consumed. -/
theorem lro_handler_retry_loop (env : ApiResult) (hs : List (String × String))
    (loc : String) (kw : RequestKwargs) (c0 : Nat) (s0 : String)
    (h1 : env.headers = some hs)
    (h2 : hs.any (fun e => e.1 == "location") = true)
    (h3 : hs.lookup "Location" = some loc)
    (h4 : env.request_kwargs = some kw)
    (h5 : s0 = "Running" ∨ s0 = "NotStarted") :
    (MAX_RETRIES = 10 ∧ RETRY_INTERVAL = 5)
  ∧ (∀ polls : List (Nat × String), (∀ p ∈ polls, nonTerminal p.2) →
      polls.length = MAX_RETRIES →
      lro_handler env (.ok (statusResp c0 s0) :: pollScript polls)
        = .ok (some ⟨false, lastCode0 c0 polls, Option.none, Option.none,
                     some "Max retries exceeded.", Option.none⟩,
               MAX_RETRIES + 1, RETRY_INTERVAL * MAX_RETRIES))
  ∧ (∀ polls : List (Nat × String), (∀ p ∈ polls, nonTerminal p.2) →
      polls.length < MAX_RETRIES →
      ∀ (cs : Nat) (r : HttpResponse) (b : PyVal), r.body = some b →
      lro_handler env (.ok (statusResp c0 s0)
          :: (pollScript polls ++ [.ok (statusResp cs "Succeeded"), .ok r]))
        = .ok (some ⟨r.ok, r.status_code,
                     if r.ok then some b else Option.none,
                     if r.ok then some r.headers else Option.none,
                     if r.ok then Option.none else some r.text,
                     Option.none⟩,
               polls.length + 3, RETRY_INTERVAL * polls.length))
  ∧ (∀ polls : List (Nat × String), (∀ p ∈ polls, nonTerminal p.2) →
      polls.length < MAX_RETRIES →
      ∀ (cs : Nat) (sF : String), (sF = "Failed" ∨ sF = "Undefined") → cs < 400 →
      lro_handler env (.ok (statusResp c0 s0)
          :: (pollScript polls ++ [.ok (statusResp cs sF)]))
        = .ok (some ⟨false, cs, some (.dict [("status", .str sF)]), some [],
                     some ("LRO failed with status: " ++ sF), Option.none⟩,
               polls.length + 2, RETRY_INTERVAL * polls.length))
  ∧ (∀ polls : List (Nat × String), (∀ p ∈ polls, nonTerminal p.2) →
      polls.length < MAX_RETRIES →
      ∀ (emsg : String) (tail : List (Except String HttpResponse)),
      lro_handler env (.ok (statusResp c0 s0)
          :: (pollScript polls ++ (.error emsg :: tail)))
        = .ok (some ⟨false, 500, Option.none, Option.none,
                     some ("LRO polling failed at attempt "
                       ++ toString (polls.length + 1) ++ ": " ++ emsg),
                     Option.none⟩,
               polls.length + 2, RETRY_INTERVAL * polls.length)) := by
  refine ⟨⟨rfl, rfl⟩, ?_, ?_, ?_, ?_⟩
  · intro polls hnt hlen
    rw [show pollScript polls = pollScript polls ++ [] from by simp,
        lro_handler_enters_loop env hs loc kw c0 s0 h1 h2 h3 h4 h5,
        lroLoop_skip polls 1 MAX_RETRIES c0 [] hnt (by omega)]
    rw [show MAX_RETRIES - polls.length = 0 from by omega]
    simp only [lroLoop, hlen]
    simp [MAX_RETRIES, RETRY_INTERVAL]
  · intro polls hnt hlen cs r b hb
    rw [lro_handler_enters_loop env hs loc kw c0 s0 h1 h2 h3 h4 h5,
        lroLoop_skip polls 1 MAX_RETRIES c0 _ hnt (by omega)]
    obtain ⟨k, hk⟩ : ∃ k, MAX_RETRIES - polls.length = k + 1 :=
      ⟨MAX_RETRIES - polls.length - 1, by omega⟩
    rw [hk, lroLoop_step_succeeded (1 + polls.length) k
          (lastCode0 c0 polls) cs r b hb []]
    simp only [Except.ok.injEq, Prod.mk.injEq]
    refine ⟨trivial, by omega, by omega⟩
  · intro polls hnt hlen cs sF hsf hcs
    rw [lro_handler_enters_loop env hs loc kw c0 s0 h1 h2 h3 h4 h5,
        lroLoop_skip polls 1 MAX_RETRIES c0 _ hnt (by omega)]
    obtain ⟨k, hk⟩ : ∃ k, MAX_RETRIES - polls.length = k + 1 :=
      ⟨MAX_RETRIES - polls.length - 1, by omega⟩
    rw [hk, lroLoop_step_failed (1 + polls.length) k
          (lastCode0 c0 polls) cs sF hsf hcs []]
    simp only [Except.ok.injEq, Prod.mk.injEq]
    refine ⟨trivial, by omega, by omega⟩
  · intro polls hnt hlen emsg tail
    rw [lro_handler_enters_loop env hs loc kw c0 s0 h1 h2 h3 h4 h5,
        lroLoop_skip polls 1 MAX_RETRIES c0 _ hnt (by omega)]
    obtain ⟨k, hk⟩ : ∃ k, MAX_RETRIES - polls.length = k + 1 :=
      ⟨MAX_RETRIES - polls.length - 1, by omega⟩
    rw [hk, lroLoop_step_transport (1 + polls.length) k
          (lastCode0 c0 polls) emsg tail]
    simp only [Except.ok.injEq, Prod.mk.injEq, Option.some.injEq]
    refine ⟨?_, by omega, by omega⟩
    have hpl : 1 + polls.length = polls.length + 1 := by omega
    rw [hpl]

/-- C4 witness: ten consecutive `Running` polls after a `Running` first
poll exhaust the budget, returning the "Max retries exceeded." failure
after 11 requests and 50 seconds of sleeping. -/
theorem lro_handler_retry_loop_witness :
    lro_handler envLro (.ok (statusResp 200 "Running")
        :: pollScript (List.replicate 10 (201, "Running")))
      = .ok (some ⟨false, 201, Option.none, Option.none,
                   some "Max retries exceeded.", Option.none⟩, 11, 50) := by
  have h := (lro_handler_retry_loop envLro
      [("location", "L"), ("Location", "L")] "L" kwFix 200 "Running"
      rfl rfl rfl rfl (Or.inl rfl)).2.1
      (List.replicate 10 (201, "Running")) (by decide) (by decide)
  exact h

/-- C7 (code bug): an envelope whose headers carry the conventional
`Location` key — and only it — is returned unchanged with zero requests,
because the membership test uses the lowercase key `'location'` while the
read uses `'Location'`; the claim (and the code's own docstring) say a
`Location` header triggers polling of the status resource. -/
theorem lro_handler_Location_ignored :
    envLocOnly.headers = some [("Location", "https://api.test/op/1")]
    ∧ lro_handler envLocOnly [.ok (statusResp 200 "Succeeded"), .ok resultFix]
        = .ok (some envLocOnly, 0, 0) := ⟨rfl, rfl⟩

/-- C5: once the validations pass, a transport-level exception during the
HTTP call never escapes `api_core_request`: a timeout yields a failure
envelope with pseudo-status 408, a connection failure 503, any other
transport error 500; in every case `data` is absent and `error` is a
non-empty string. -/
theorem api_core_request_transport_classification
    (endpoint content_type : String) (payload dataArg params : Option PyVal)
    (audience method : String) (return_raw : Bool) (timeout : Int)
    (tes : List (String × PyVal)) (e : TransportError)
    (htok : tes ≠ [])
    (hboth : payload.isSome = false ∨ dataArg.isSome = false)
    (hpay : payload = Option.none ∨ ∃ pes, payload = some (PyVal.dict pes))
    (hpar : params = Option.none ∨ ∃ qes, params = some (PyVal.dict qes)) :
    ∃ env : ApiResult,
      api_core_request endpoint content_type payload dataArg params audience
          method return_raw timeout (PyVal.dict tes) (.exc e)
        = .ok (.envelope env)
      ∧ env.success = false
      ∧ env.status_code
          = (if e.isTimeout then 408 else if e.isConnectionError then 503 else 500)
      ∧ env.data = Option.none
      ∧ ∃ m, env.error = some m ∧ m ≠ "" := by
  obtain ⟨u, hu⟩ : ∃ u,
      urlWithParams
        ((if audience == "fabric" then FABRIC_API else POWERBI_API) ++ endpoint)
        params = .ok u := by
    rcases hpar with rfl | ⟨qes, rfl⟩
    · exact ⟨_, rfl⟩
    · by_cases hq : (PyVal.dict qes).truthy
      · exact ⟨_, by simp [urlWithParams, hq]; rfl⟩
      · exact ⟨_, by simp [urlWithParams, hq]; rfl⟩
  have hb2 : (payload.isSome && dataArg.isSome) = false := by
    rcases hboth with h | h <;> simp [h]
  have hpd : (payload.getD (PyVal.dict [])).isDict = true := by
    rcases hpay with rfl | ⟨pes, rfl⟩ <;> simp [PyVal.isDict]
  have htr : (PyVal.dict tes).truthy = true := by
    simp [PyVal.truthy, htok]
  simp only [api_core_request, hu, hb2, htr, hpd, pyGetMethod, Bool.not_true,
    Bool.false_eq_true, if_false, Bool.not_false, if_true]
  by_cases hT : e.isTimeout
  · simp only [hT, if_true]
    exact ⟨_, rfl, rfl, rfl, rfl, _, rfl,
      strAppend_ne_empty _ _ (strAppend_data_ne _ _ (by decide))⟩
  · simp only [hT, if_false, Bool.false_eq_true]
    by_cases hC : e.isConnectionError
    · simp only [hC, if_true]
      exact ⟨_, rfl, rfl, rfl, rfl, _, rfl, strAppend_ne_empty _ _ (by decide)⟩
    · simp only [hC, if_false, Bool.false_eq_true]
      exact ⟨_, rfl, rfl, rfl, rfl, _, rfl, strAppend_ne_empty _ _ (by decide)⟩

/-- C5 witness: a concrete timeout on a plain GET classifies to 408 with
absent data and a non-empty error message. -/
theorem api_core_request_transport_witness :
    ∃ env : ApiResult,
      api_core_request "/x" "application/json" Option.none Option.none
          Option.none "fabric" "get" false 30
          (PyVal.dict [("access_token", PyVal.str "T")])
          (.exc ⟨true, false, "slow"⟩)
        = .ok (.envelope env)
      ∧ env.success = false
      ∧ env.status_code = 408
      ∧ env.data = Option.none
      ∧ ∃ m, env.error = some m ∧ m ≠ "" := by
  have h := api_core_request_transport_classification "/x" "application/json"
      Option.none Option.none Option.none "fabric" "get" false 30
      [("access_token", PyVal.str "T")] ⟨true, false, "slow"⟩
      (List.cons_ne_nil _ _) (Or.inl rfl) (Or.inl rfl) (Or.inl rfl)
  exact h

/-- C6 (amended): with the validations passing, `api_core_request` returns
an `ApiResult` envelope in every case except one: in `return_raw` mode
with a completed transport call it returns the raw transport response
object itself, unwrapped (a transport exception still yields a failure
envelope even in `return_raw` mode). -/
theorem api_core_request_return_shape
    (endpoint content_type : String) (payload dataArg params : Option PyVal)
    (audience method : String) (timeout : Int)
    (tes : List (String × PyVal))
    (htok : tes ≠ [])
    (hboth : payload.isSome = false ∨ dataArg.isSome = false)
    (hpay : payload = Option.none ∨ ∃ pes, payload = some (PyVal.dict pes))
    (hpar : params = Option.none ∨ ∃ qes, params = some (PyVal.dict qes)) :
    (∀ r : HttpResponse,
      api_core_request endpoint content_type payload dataArg params audience
          method true timeout (PyVal.dict tes) (.response r) = .ok (.raw r))
  ∧ (∀ outcome : TransportOutcome, ∃ env : ApiResult,
      api_core_request endpoint content_type payload dataArg params audience
          method false timeout (PyVal.dict tes) outcome = .ok (.envelope env))
  ∧ (∀ e : TransportError, ∃ env : ApiResult,
      api_core_request endpoint content_type payload dataArg params audience
          method true timeout (PyVal.dict tes) (.exc e)
        = .ok (.envelope env)) := by
  obtain ⟨u, hu⟩ : ∃ u,
      urlWithParams
        ((if audience == "fabric" then FABRIC_API else POWERBI_API) ++ endpoint)
        params = .ok u := by
    rcases hpar with rfl | ⟨qes, rfl⟩
    · exact ⟨_, rfl⟩
    · by_cases hq : (PyVal.dict qes).truthy
      · exact ⟨_, by simp [urlWithParams, hq]; rfl⟩
      · exact ⟨_, by simp [urlWithParams, hq]; rfl⟩
  have hb2 : (payload.isSome && dataArg.isSome) = false := by
    rcases hboth with h | h <;> simp [h]
  have hpd : (payload.getD (PyVal.dict [])).isDict = true := by
    rcases hpay with rfl | ⟨pes, rfl⟩ <;> simp [PyVal.isDict]
  have htr : (PyVal.dict tes).truthy = true := by
    simp [PyVal.truthy, htok]
  refine ⟨?_, ?_, ?_⟩
  · intro r
    simp only [api_core_request, hu, hb2, htr, hpd, pyGetMethod, Bool.not_true,
      Bool.false_eq_true, if_false, Bool.not_false, if_true]
  · intro outcome
    cases outcome with
    | exc e =>
      simp only [api_core_request, hu, hb2, htr, hpd, pyGetMethod, Bool.not_true,
        Bool.false_eq_true, if_false, Bool.not_false, if_true]
      by_cases hT : e.isTimeout
      · simp only [hT, if_true]
        exact ⟨_, rfl⟩
      · simp only [hT, if_false, Bool.false_eq_true]
        by_cases hC : e.isConnectionError
        · simp only [hC, if_true]
          exact ⟨_, rfl⟩
        · simp only [hC, if_false, Bool.false_eq_true]
          exact ⟨_, rfl⟩
    | response r =>
      simp only [api_core_request, hu, hb2, htr, hpd, pyGetMethod, Bool.not_true,
        Bool.false_eq_true, if_false, Bool.not_false, if_true]
      exact ⟨_, rfl⟩
  · intro e
    simp only [api_core_request, hu, hb2, htr, hpd, pyGetMethod, Bool.not_true,
      Bool.false_eq_true, if_false, Bool.not_false, if_true]
    by_cases hT : e.isTimeout
    · simp only [hT, if_true]
      exact ⟨_, rfl⟩
    · simp only [hT, if_false, Bool.false_eq_true]
      by_cases hC : e.isConnectionError
      · simp only [hC, if_true]
        exact ⟨_, rfl⟩
      · simp only [hC, if_false, Bool.false_eq_true]
        exact ⟨_, rfl⟩

/-- C6 witness: concrete calls showing the three return shapes — raw
response in `return_raw` mode, envelope with `return_raw` off, and a
failure envelope for a connection error even in `return_raw` mode. -/
theorem api_core_request_return_shape_witness :
    (api_core_request "/x" "application/json" Option.none Option.none
        Option.none "fabric" "get" true 30 tokFix (.response respRaw)
      = .ok (.raw respRaw))
    ∧ (∃ env : ApiResult,
        api_core_request "/x" "application/json" Option.none Option.none
            Option.none "fabric" "get" false 30 tokFix (.response respRaw)
          = .ok (.envelope env))
    ∧ (∃ env : ApiResult,
        api_core_request "/x" "application/json" Option.none Option.none
            Option.none "fabric" "get" true 30 tokFix
            (.exc ⟨false, true, "refused"⟩)
          = .ok (.envelope env)) := by
  have h := api_core_request_return_shape "/x" "application/json" Option.none
      Option.none Option.none "fabric" "get" 30
      [("access_token", PyVal.str "T")]
      (List.cons_ne_nil _ _) (Or.inl rfl) (Or.inl rfl) (Or.inl rfl)
  exact ⟨h.1 respRaw, h.2.1 (.response respRaw), h.2.2 ⟨false, true, "refused"⟩⟩

/-- C6 counterexample: with `return_raw` requested and a completed
transport call, `api_core_request` returns the raw response object itself,
not a `ResultEnvelope` wrapping it in `data` — contradicting the claim
that it always returns a `ResultEnvelope`. -/
theorem api_core_request_raw_cex :
    api_core_request "/x" "application/json" Option.none Option.none
        Option.none "fabric" "get" true 30 tokFix (.response respRaw)
      = .ok (.raw respRaw)
    ∧ ApiReturn.isEnvelope (.raw respRaw) = false := ⟨rfl, rfl⟩

/-- C8 (amended): for a successful list dispatch whose template is not
marked raw, if the template supports pagination the dispatcher routes the
envelope through `pagination_handler` and returns the accumulated `value`
collection; otherwise it falls off the end of the function and returns
`None` — not the envelope's decoded data. -/
theorem list_generic_routing
    (templates : List (String × Template)) (name : String) (tpl : Template)
    (ws : Option String) (token : PyVal) (outcome : TransportOutcome)
    (pagS : List (Except String HttpResponse)) (env : ApiResult)
    (hl : templates.lookup name = some tpl)
    (hraw : tpl.return_raw = false)
    (hg : (tpl.requires_workspace_id && ws.isNone) = false)
    (henv : api_core_request (listEndpoint tpl ws) tpl.content_type tpl.payload
        tpl.data tpl.params tpl.audience tpl.method tpl.return_raw 30 token
        outcome = .ok (.envelope env))
    (hsucc : env.success = true) :
    (tpl.support_pagination = true →
      ∀ penv urls pes, pagination_handler env pagS = .ok (penv, urls) →
        penv.data = some (PyVal.dict pes) →
        _list_generic templates name ws token outcome pagS
          = .ok (.val ((pes.lookup "value").getD (PyVal.list []))))
  ∧ (tpl.support_pagination = false →
      _list_generic templates name ws token outcome pagS = .ok PyRet.none) := by
  rw [hraw] at henv
  constructor
  · intro hp penv urls pes hph hd
    simp only [_list_generic, hl, hg, henv, hraw, hsucc, hp, hph, hd,
      Bool.false_eq_true, if_false, Bool.not_true, Bool.not_false, if_true,
      pyGetMethod]
  · intro hp
    simp only [_list_generic, hl, hg, henv, hraw, hsucc, hp,
      Bool.false_eq_true, if_false, Bool.not_true, Bool.not_false, if_true]

/-- C8 witness: a pagination-enabled template with a single-page response
returns the page's `value` collection. -/
theorem list_generic_routing_witness :
    _list_generic [("items", tplPag)] "items" Option.none tokFix
        (.response respList) [] = .ok (.val (PyVal.list [PyVal.int 1])) := by
  have h := (list_generic_routing [("items", tplPag)] "items" tplPag
      Option.none tokFix (.response respList) [] envList
      rfl rfl rfl rfl rfl).1 rfl envList []
      [("value", PyVal.list [PyVal.int 1])] rfl rfl
  exact h

/-- C8 counterexample: a successful, non-raw list dispatch whose template
does not support pagination returns `None`, not the envelope's decoded
data `{'value': [1]}` — contradicting the claim's "otherwise" branch. -/
theorem list_generic_nopag_cex :
    _list_generic [("items", tplNoPag)] "items" Option.none tokFix
        (.response respList) [] = .ok PyRet.none
    ∧ PyRet.none
        ≠ PyRet.val (PyVal.dict [("value", PyVal.list [PyVal.int 1])]) :=
  ⟨rfl, fun h => nomatch h⟩

/-- C9: for every dispatcher entry point (list, get, delete, create/post,
update/patch): an unknown endpoint name, or a missing required workspace
id, raises an error before any network interaction (the outcome is the
same for every token, transport outcome and script); whereas a terminal
remote failure — a failure envelope, or a 202 envelope whose LRO
resolution fails — makes the dispatcher return `None` instead of
raising. -/
theorem dispatchers_error_policy
    (templates : List (String × Template)) (name : String) :
    (templates.lookup name = Option.none →
      ∀ (ws iid : Option String) (pay : Option PyVal) (token : PyVal)
        (outcome : TransportOutcome)
        (pagS lroS : List (Except String HttpResponse)),
        _list_generic templates name ws token outcome pagS
          = .error ("Unknown template name: " ++ name)
      ∧ _get_generic templates name ws iid token outcome
          = .error ("Unknown template name: " ++ name)
      ∧ _delete_generic templates name ws iid token outcome
          = .error ("Unknown template name: " ++ name)
      ∧ _post_generic templates name ws iid pay token outcome lroS
          = .error ("Unknown template name: " ++ name)
      ∧ _patch_generic templates name ws iid pay token outcome lroS
          = .error ("Unknown template name: " ++ name))
  ∧ (∀ tpl : Template, templates.lookup name = some tpl →
      tpl.requires_workspace_id = true →
      ∀ (iid : Option String) (pay : Option PyVal) (token : PyVal)
        (outcome : TransportOutcome)
        (pagS lroS : List (Except String HttpResponse)),
        _list_generic templates name Option.none token outcome pagS
          = .error ("Workspace ID is required for endpoint: " ++ name)
      ∧ _get_generic templates name Option.none iid token outcome
          = .error ("Workspace ID is required for endpoint: " ++ name)
      ∧ _delete_generic templates name Option.none iid token outcome
          = .error ("Workspace ID is required for endpoint: " ++ name)
      ∧ _post_generic templates name Option.none iid pay token outcome lroS
          = .error ("Workspace ID is required for endpoint: " ++ name)
      ∧ _patch_generic templates name Option.none iid pay token outcome lroS
          = .error ("Workspace ID is required for endpoint: " ++ name))
  ∧ (∀ tpl : Template, templates.lookup name = some tpl →
      tpl.return_raw = false →
      ∀ (ws iid : Option String) (pay : Option PyVal) (token : PyVal)
        (outcome : TransportOutcome)
        (pagS lroS : List (Except String HttpResponse)),
        (tpl.requires_workspace_id && ws.isNone) = false →
        (∀ env : ApiResult,
          api_core_request (listEndpoint tpl ws) tpl.content_type tpl.payload
              tpl.data tpl.params tpl.audience tpl.method false 30 token outcome
            = .ok (.envelope env) → env.success = false →
          _list_generic templates name ws token outcome pagS = .ok PyRet.none)
      ∧ (∀ env : ApiResult,
          api_core_request (itemEndpoint tpl ws iid) tpl.content_type tpl.payload
              tpl.data tpl.params tpl.audience tpl.method false 30 token outcome
            = .ok (.envelope env) → env.success = false →
          _get_generic templates name ws iid token outcome = .ok PyRet.none)
      ∧ (∀ env : ApiResult,
          api_core_request (itemEndpoint tpl ws iid) tpl.content_type tpl.payload
              tpl.data tpl.params tpl.audience "delete" false 30 token outcome
            = .ok (.envelope env) → env.success = false →
          _delete_generic templates name ws iid token outcome = .ok PyRet.none)
      ∧ (∀ env : ApiResult,
          api_core_request (postEndpoint tpl ws iid) tpl.content_type
              (pyOr pay tpl.payload) tpl.data tpl.params tpl.audience "post"
              false 30 token outcome
            = .ok (.envelope env) → env.success = false →
          _post_generic templates name ws iid pay token outcome lroS
            = .ok PyRet.none)
      ∧ (∀ env : ApiResult,
          api_core_request (itemEndpoint tpl ws iid) tpl.content_type
              (pyOr pay tpl.payload) tpl.data tpl.params tpl.audience "patch"
              false 30 token outcome
            = .ok (.envelope env) → env.success = false →
          _patch_generic templates name ws iid pay token outcome lroS
            = .ok PyRet.none))
  ∧ (∀ tpl : Template, templates.lookup name = some tpl →
      tpl.return_raw = false →
      ∀ (ws iid : Option String) (pay : Option PyVal) (token : PyVal)
        (outcome : TransportOutcome)
        (lroS : List (Except String HttpResponse)),
        (tpl.requires_workspace_id && ws.isNone) = false →
        (∀ (env lenv : ApiResult) (n s : Nat),
          api_core_request (postEndpoint tpl ws iid) tpl.content_type
              (pyOr pay tpl.payload) tpl.data tpl.params tpl.audience "post"
              false 30 token outcome
            = .ok (.envelope env) →
          env.success = true → env.status_code = 202 →
          lro_handler env lroS = .ok (some lenv, n, s) → lenv.success = false →
          _post_generic templates name ws iid pay token outcome lroS
            = .ok PyRet.none)
      ∧ (∀ (env lenv : ApiResult) (n s : Nat),
          api_core_request (itemEndpoint tpl ws iid) tpl.content_type
              (pyOr pay tpl.payload) tpl.data tpl.params tpl.audience "patch"
              false 30 token outcome
            = .ok (.envelope env) →
          env.success = true → env.status_code = 202 →
          lro_handler env lroS = .ok (some lenv, n, s) → lenv.success = false →
          _patch_generic templates name ws iid pay token outcome lroS
            = .ok PyRet.none)) := by
  refine ⟨?_, ?_, ?_, ?_⟩
  · intro h ws iid pay token outcome pagS lroS
    refine ⟨?_, ?_, ?_, ?_, ?_⟩ <;>
      simp [_list_generic, _get_generic, _delete_generic, _post_generic,
        _patch_generic, h]
  · intro tpl hl hreq iid pay token outcome pagS lroS
    refine ⟨?_, ?_, ?_, ?_, ?_⟩ <;>
      simp [_list_generic, _get_generic, _delete_generic, _post_generic,
        _patch_generic, hl, hreq]
  · intro tpl hl hraw ws iid pay token outcome pagS lroS hg
    refine ⟨?_, ?_, ?_, ?_, ?_⟩ <;> intro env henv hfail
    · simp only [_list_generic, hl, hg, hraw, henv, hfail, Bool.false_eq_true,
        if_false, Bool.not_false, if_true]
    · simp only [_get_generic, hl, hg, hraw, henv, hfail, Bool.false_eq_true,
        if_false, Bool.not_false, if_true]
    · simp only [_delete_generic, hl, hg, hraw, henv, hfail, Bool.false_eq_true,
        if_false, Bool.not_false, if_true]
    · simp only [_post_generic, hl, hg, hraw, henv, hfail, Bool.false_eq_true,
        if_false, Bool.not_false, if_true]
    · simp only [_patch_generic, hl, hg, hraw, henv, hfail, Bool.false_eq_true,
        if_false, Bool.not_false, if_true]
  · intro tpl hl hraw ws iid pay token outcome lroS hg
    constructor
    · intro env lenv n s henv hsucc h202 hlro hlfail
      simp only [_post_generic, hl, hg, hraw, henv, hsucc, h202, hlro, hlfail,
        Bool.false_eq_true, if_false, Bool.not_true, Bool.not_false, if_true]
      simp
    · intro env lenv n s henv hsucc h202 hlro hlfail
      simp only [_patch_generic, hl, hg, hraw, henv, hsucc, h202, hlro, hlfail,
        Bool.false_eq_true, if_false, Bool.not_true, Bool.not_false, if_true]
      simp

/-- C9 witness: dispatching an unknown endpoint name through all five
entry points raises the configuration error for each, with the network
double untouched. -/
theorem dispatchers_error_policy_witness :
    _list_generic [] "nope" Option.none tokFix (.response respList) []
      = .error ("Unknown template name: " ++ "nope")
    ∧ _get_generic [] "nope" Option.none Option.none tokFix (.response respList)
      = .error ("Unknown template name: " ++ "nope")
    ∧ _delete_generic [] "nope" Option.none Option.none tokFix
        (.response respList)
      = .error ("Unknown template name: " ++ "nope")
    ∧ _post_generic [] "nope" Option.none Option.none Option.none tokFix
        (.response respList) []
      = .error ("Unknown template name: " ++ "nope")
    ∧ _patch_generic [] "nope" Option.none Option.none Option.none tokFix
        (.response respList) []
      = .error ("Unknown template name: " ++ "nope") := by
  have h := (dispatchers_error_policy [] "nope").1 rfl Option.none Option.none
      Option.none tokFix (.response respList) [] []
  exact ⟨h.1, h.2.1, h.2.2.1, h.2.2.2.1, h.2.2.2.2⟩

end PyFabricOps
